import Mathlib

/-!
Verification of the 990 Lookup Gateway (src/app.py).

Strings are modelled as lists of characters.  The Python string helpers
used by the handlers (`str.strip`, `str.replace(c, '')`, `str.upper`,
`str.split(sep)`, substring containment) are embedded below, restricted to
the ASCII character ranges the application deals with.  `urllib.parse.urlparse`
is embedded to the extent the handlers use it: scheme splitting, netloc
extraction, and the mismatched-bracket `ValueError`.

Each Flask handler becomes a pure function from its request parameters and
an upstream-outcome oracle to a record of (the upstream URL it requested,
if any, and the outbound status and body).
-/

namespace Lookup

abbrev Str := List Char

/-- ASCII whitespace stripped by Python `str.strip()` (the Unicode
whitespace code points outside ASCII are not modelled; the application
only handles ASCII identifiers and queries). -/
def pyIsSpace (c : Char) : Bool :=
  c = ' ' ∨ c = '\t' ∨ c = '\n' ∨ c = '\r' ∨ c = '\x0b' ∨ c = '\x0c'

/-- Python `s.strip()`: drop leading and trailing whitespace. -/
def pyStrip (s : Str) : Str :=
  ((s.dropWhile pyIsSpace).reverse.dropWhile pyIsSpace).reverse

/-- Python `s.replace(t, '')` for a single-character pattern `t`:
every occurrence of `t` is removed, all other characters are kept in order. -/
def pyRemoveChar (t : Char) : Str → Str
  | [] => []
  | c :: rest => if c = t then pyRemoveChar t rest else c :: pyRemoveChar t rest

/-- Python `s.upper()` on the ASCII range (`Char.toUpper` maps `a`-`z`
to `A`-`Z` and leaves everything else unchanged, as Python does on ASCII). -/
def pyUpper (s : Str) : Str := s.map Char.toUpper

/-- Python `s.split(sep)` for a single-character separator: split at every
occurrence, keeping empty fragments; `''.split(sep) == ['']`, so the result
is never the empty list. -/
def pySplitOn (sep : Char) : Str → List Str
  | [] => [[]]
  | c :: rest =>
    match pySplitOn sep rest with
    | [] => [[]]
    | t :: ts => if c = sep then [] :: t :: ts else (c :: t) :: ts

/-- Python substring containment `pat in s`. -/
def pyContainsSub (pat : Str) : Str → Bool
  | [] => pat == []
  | c :: rest => pat.isPrefixOf (c :: rest) || pyContainsSub pat rest

/-- Characters allowed in a URL scheme by `urllib.parse`
(ASCII letters, digits, `+`, `-`, `.`). -/
def isSchemeChar (c : Char) : Bool :=
  c.isAlphanum ∨ c = '+' ∨ c = '-' ∨ c = '.'

/-- The scheme-splitting step of `urllib.parse.urlsplit`: if the text before
the first `:` is a well-formed scheme (first character an ASCII letter, all
characters scheme characters), drop the scheme and the colon; otherwise the
url is left unchanged. -/
def pySchemeSplit (u : Str) : Str :=
  match u.findIdx? (· = ':') with
  | none => u
  | some i =>
    if 0 < i ∧ (u.headD ' ').isAlpha ∧ (u.take i).all isSchemeChar then
      u.drop (i + 1)
    else u

/-- The netloc-extraction step of `urllib.parse.urlsplit`: if the remainder
after the scheme starts with `//`, the netloc is everything up to the first
`/`, `?` or `#`; otherwise the netloc is empty. -/
def pyNetlocOf (u : Str) : Str :=
  match u with
  | '/' :: '/' :: rest =>
    rest.takeWhile (fun c => decide (¬(c = '/' ∨ c = '?' ∨ c = '#')))
  | _ => []

/-- `urllib.parse.urlparse(url).netloc`.  CPython first removes the unsafe
bytes tab, carriage return and newline, then splits off the scheme and
extracts the netloc; a netloc with a `[` but no `]` (or vice versa) raises
`ValueError`, modelled as `Except.error`. -/
def pyUrlparseNetloc (url : Str) : Except Unit Str :=
  let u := url.filter (fun c => decide (¬(c = '\t' ∨ c = '\r' ∨ c = '\n')))
  let nl := pyNetlocOf (pySchemeSplit u)
  if (nl.contains '[' && !(nl.contains ']')) ||
     (nl.contains ']' && !(nl.contains '[')) then
    Except.error ()
  else
    Except.ok nl

/-- Outbound response body: either a JSON error envelope with a single
`error` field, or the upstream JSON payload passed through verbatim. -/
inductive Body where
  | err (msg : Str)
  | payload (data : Str)
deriving DecidableEq

/-- Outcome of the single outbound HTTP call, as the handler observes it.
`resp status jsonOk body` is an HTTP response; `jsonOk` records whether
`response.json()` (and the trivial dictionary access that follows it)
succeeds.  `connError` is a non-timeout `requests.RequestException`;
`otherFault` is any other exception raised inside the `try` block. -/
inductive UpOutcome where
  | timeout
  | connError
  | otherFault
  | resp (status : Nat) (jsonOk : Bool) (body : Str)
deriving DecidableEq

/-- What one handler invocation did: the upstream URL it requested
(`none` when no outbound call was issued), and the outbound status and body. -/
structure HandlerRun where
  upstreamUrl : Option Str
  status : Nat
  body : Body
deriving DecidableEq

def API_BASE : Str := "https://projects.propublica.org/nonprofits/api/v2".data

/-- `ein_clean = ein.replace('-', '').strip()` in `get_organization`. -/
def ein_clean (ein : Str) : Str := pyStrip (pyRemoveChar '-' ein)

/-- The upstream URL built by `get_organization`. -/
def orgUrl (ein : Str) : Str :=
  API_BASE ++ "/organizations/".data ++ ein_clean ein ++ ".json".data

/-- The status/body mapping of `get_organization`'s `try`/`except` around the
outbound call: the explicit 404 check, `raise_for_status` (an `HTTPError` is a
`RequestException`), and the three `except` arms.  `requests.Response.json()`
raises `requests.exceptions.JSONDecodeError`, a `RequestException` in
requests >= 2.27, so a body that fails to decode lands in the
`RequestException` branch. -/
def orgResult : UpOutcome → Nat × Body
  | .timeout => (504, .err "Request timeout".data)
  | .connError => (500, .err "Failed to fetch organization data".data)
  | .otherFault => (500, .err "Internal server error".data)
  | .resp status jsonOk body =>
    if status = 404 then
      (404, .err "Organization not found".data)
    else if 400 ≤ status ∧ status < 600 then
      (500, .err "Failed to fetch organization data".data)
    else if jsonOk then
      (200, .payload body)
    else
      (500, .err "Failed to fetch organization data".data)

/-- Handler for `GET /api/organization/<ein>` (src/app.py lines 37-70):
the outbound call is always issued, then the outcome is mapped. -/
def get_organization (ein : Str) (up : UpOutcome) : HandlerRun :=
  ⟨some (orgUrl ein), (orgResult up).1, (orgResult up).2⟩

/-- `query = request.args.get('q', '').strip()` in `search_organizations`. -/
def searchQuery (qParam : Option Str) : Str := pyStrip (qParam.getD [])

/-- `state = request.args.get('state', '').strip().upper()`. -/
def searchState (stParam : Option Str) : Str := pyUpper (pyStrip (stParam.getD []))

/-- The upstream URL built by `search_organizations`: the state filter is
appended only when the normalized state is non-empty. -/
def searchUrl (query state : Str) : Str :=
  let u := API_BASE ++ "/search.json?q=".data ++ query
  if state ≠ [] then u ++ "&state[id]=".data ++ state else u

/-- The status/body mapping of `search_organizations`'s `try`/`except` around
the outbound call (no explicit 404 handling here). -/
def searchResult : UpOutcome → Nat × Body
  | .timeout => (504, .err "Request timeout".data)
  | .connError => (500, .err "Failed to search organizations".data)
  | .otherFault => (500, .err "Internal server error".data)
  | .resp status jsonOk body =>
    if 400 ≤ status ∧ status < 600 then
      (500, .err "Failed to search organizations".data)
    else if jsonOk then
      (200, .payload body)
    else
      (500, .err "Failed to search organizations".data)

/-- Handler for `GET /api/search` (src/app.py lines 72-114). -/
def search_organizations (qParam stParam : Option Str) (up : UpOutcome) :
    HandlerRun :=
  let query := searchQuery qParam
  let state := searchState stParam
  if query = [] then
    ⟨none, 400, .err "Query parameter \"q\" is required".data⟩
  else
    ⟨some (searchUrl query state), (searchResult up).1, (searchResult up).2⟩

/-- The derived search term of `search_by_domain` (src/app.py lines 130-132):
prepend `http://` when the input has no `://`, parse, take the netloc, split
it on `.`, use the first fragment, falling back to the raw domain when the
split is empty.  An `Except.error` is a `ValueError` from `urlparse`. -/
def domainSearchTerm (domain : Str) : Except Unit Str :=
  let toParse :=
    if pyContainsSub "://".data domain then domain else "http://".data ++ domain
  match pyUrlparseNetloc toParse with
  | .error e => .error e
  | .ok netloc =>
    let domain_parts := pySplitOn '.' netloc
    .ok (match domain_parts with
         | p :: _ => p
         | [] => domain)

/-- The status/body mapping of `search_by_domain`'s single `except Exception`
arm: every failure around the outbound call collapses to the one 500 body. -/
def domainResult : UpOutcome → Nat × Body
  | .timeout => (500, .err "Failed to search by domain".data)
  | .connError => (500, .err "Failed to search by domain".data)
  | .otherFault => (500, .err "Failed to search by domain".data)
  | .resp status jsonOk body =>
    if 400 ≤ status ∧ status < 600 then
      (500, .err "Failed to search by domain".data)
    else if jsonOk then
      (200, .payload body)
    else
      (500, .err "Failed to search by domain".data)

/-- Handler for `GET /api/search-domain` (src/app.py lines 116-150):
a `ValueError` raised by `urlparse` before the outbound call is also caught
by the same `except Exception` arm. -/
def search_by_domain (domainParam : Option Str) (up : UpOutcome) : HandlerRun :=
  let domain := pyStrip (domainParam.getD [])
  if domain = [] then
    ⟨none, 400, .err "Query parameter \"domain\" is required".data⟩
  else
    match domainSearchTerm domain with
    | .error _ => ⟨none, 500, .err "Failed to search by domain".data⟩
    | .ok search_term =>
      ⟨some (API_BASE ++ "/search.json?q=".data ++ search_term),
       (domainResult up).1, (domainResult up).2⟩

/-- Flask `errorhandler(404)` (src/app.py lines 152-154). -/
def not_found : HandlerRun := ⟨none, 404, .err "Endpoint not found".data⟩

/-- Flask `errorhandler(500)` (src/app.py lines 156-158). -/
def internal_error : HandlerRun := ⟨none, 500, .err "Internal server error".data⟩

/-- The outbound error status codes the gateway uses. -/
def errorStatuses : List Nat := [400, 404, 500, 504]

/-- The outbound JSON contract: either a 200 with a passthrough payload, or
an error status from the gateway's taxonomy with an `error`-field body. -/
def jsonContract (r : HandlerRun) : Prop :=
  (r.status = 200 ∧ ∃ d, r.body = .payload d) ∨
  (r.status ∈ errorStatuses ∧ ∃ m, r.body = .err m)

/-- The outbound JSON contract on a bare status/body pair. -/
def contractPair (p : Nat × Body) : Prop :=
  (p.1 = 200 ∧ ∃ d, p.2 = .payload d) ∨
  (p.1 ∈ errorStatuses ∧ ∃ m, p.2 = .err m)

theorem orgResult_contract (up : UpOutcome) : contractPair (orgResult up) := by
  unfold contractPair
  cases up with
  | timeout => exact Or.inr ⟨by decide, _, rfl⟩
  | connError => exact Or.inr ⟨by decide, _, rfl⟩
  | otherFault => exact Or.inr ⟨by decide, _, rfl⟩
  | resp status jsonOk body =>
    simp only [orgResult]
    split
    · exact Or.inr ⟨by decide, _, rfl⟩
    · split
      · exact Or.inr ⟨by decide, _, rfl⟩
      · split
        · exact Or.inl ⟨rfl, _, rfl⟩
        · exact Or.inr ⟨by decide, _, rfl⟩

theorem searchResult_contract (up : UpOutcome) : contractPair (searchResult up) := by
  unfold contractPair
  cases up with
  | timeout => exact Or.inr ⟨by decide, _, rfl⟩
  | connError => exact Or.inr ⟨by decide, _, rfl⟩
  | otherFault => exact Or.inr ⟨by decide, _, rfl⟩
  | resp status jsonOk body =>
    simp only [searchResult]
    split
    · exact Or.inr ⟨by decide, _, rfl⟩
    · split
      · exact Or.inl ⟨rfl, _, rfl⟩
      · exact Or.inr ⟨by decide, _, rfl⟩

theorem domainResult_contract (up : UpOutcome) : contractPair (domainResult up) := by
  unfold contractPair
  cases up with
  | timeout => exact Or.inr ⟨by decide, _, rfl⟩
  | connError => exact Or.inr ⟨by decide, _, rfl⟩
  | otherFault => exact Or.inr ⟨by decide, _, rfl⟩
  | resp status jsonOk body =>
    simp only [domainResult]
    split
    · exact Or.inr ⟨by decide, _, rfl⟩
    · split
      · exact Or.inl ⟨rfl, _, rfl⟩
      · exact Or.inr ⟨by decide, _, rfl⟩

theorem pySplitOn_ne_nil (sep : Char) (s : Str) : pySplitOn sep s ≠ [] := by
  cases s with
  | nil => simp [pySplitOn]
  | cons c rest =>
    simp only [pySplitOn]
    cases h : pySplitOn sep rest with
    | nil => simp
    | cons t ts =>
      simp only [h]
      split <;> simp

/-- Claim C1: the identifier embedded in the upstream URL path of Get
Organization by Identifier equals the input with every hyphen removed
(`pyRemoveChar` keeps all other characters, in order) and surrounding
whitespace then trimmed. -/
theorem c1_upstream_identifier_normalized (ein : Str) (up : UpOutcome) :
    (get_organization ein up).upstreamUrl =
      some (API_BASE ++ "/organizations/".data ++
        pyStrip (pyRemoveChar '-' ein) ++ ".json".data) := rfl

/-- Claim C2: a Search-by-Name request whose `q` parameter is absent or empty
after trimming gets a 400 with the fixed error body and no upstream call. -/
theorem c2_missing_query_rejected (qParam stParam : Option Str) (up : UpOutcome)
    (h : pyStrip (qParam.getD []) = []) :
    search_organizations qParam stParam up =
      ⟨none, 400, .err ("Query parameter \"q\" is required".data)⟩ := by
  simp [search_organizations, searchQuery, h]

theorem c2_missing_query_rejected_witness :
    search_organizations none none .timeout =
      ⟨none, 400, .err ("Query parameter \"q\" is required".data)⟩ :=
  c2_missing_query_rejected none none .timeout rfl

/-- Claim C3: on an upstream timeout, Get Organization by Identifier and
Search by Name respond 504 with body error `Request timeout`, while Search
by Domain responds 500 with body error `Failed to search by domain`. -/
theorem c3_timeout_mapping (ein : Str) (qParam stParam dParam : Option Str)
    (hq : pyStrip (qParam.getD []) ≠ [])
    (hd : (search_by_domain dParam .timeout).upstreamUrl.isSome) :
    ((get_organization ein .timeout).status = 504 ∧
      (get_organization ein .timeout).body = .err ("Request timeout".data)) ∧
    ((search_organizations qParam stParam .timeout).status = 504 ∧
      (search_organizations qParam stParam .timeout).body =
        .err ("Request timeout".data)) ∧
    ((search_by_domain dParam .timeout).status = 500 ∧
      (search_by_domain dParam .timeout).body =
        .err ("Failed to search by domain".data)) := by
  refine ⟨⟨rfl, rfl⟩, ?_, ?_⟩
  · constructor <;> simp [search_organizations, searchQuery, hq, searchResult]
  · by_cases h0 : pyStrip (dParam.getD []) = []
    · exfalso
      simp [search_by_domain, h0] at hd
    · cases hterm : domainSearchTerm (pyStrip (dParam.getD [])) with
      | error e => constructor <;> simp [search_by_domain, h0, hterm]
      | ok t => constructor <;> simp [search_by_domain, h0, hterm, domainResult]

theorem c3_timeout_mapping_witness :
    (get_organization ("530196605".data) .timeout).status = 504 ∧
    (search_organizations (some ("red".data)) none .timeout).status = 504 ∧
    (search_by_domain (some ("redcross.org".data)) .timeout).status = 500 := by
  have h := c3_timeout_mapping ("530196605".data) (some ("red".data)) none
    (some ("redcross.org".data)) (by decide) (by decide)
  exact ⟨h.1.1, h.2.1.1, h.2.2.1⟩

/-- Claim C4: for a non-empty trimmed domain whose URL parse succeeds, the
upstream search URL uses the derived term: first dot-separated label of the
host obtained after prepending `http://` when the input lacks `://`, with the
raw domain as fallback when the split yields no labels; no state filter. -/
theorem c4_domain_term_derivation (dParam : Option Str) (up : UpOutcome) (nl : Str)
    (h0 : pyStrip (dParam.getD []) ≠ [])
    (hnl : pyUrlparseNetloc
        (if pyContainsSub ("://".data) (pyStrip (dParam.getD []))
         then pyStrip (dParam.getD [])
         else "http://".data ++ pyStrip (dParam.getD [])) = .ok nl) :
    (search_by_domain dParam up).upstreamUrl =
      some (API_BASE ++ "/search.json?q=".data ++
        (match pySplitOn '.' nl with
         | p :: _ => p
         | [] => pyStrip (dParam.getD []))) := by
  have hterm : domainSearchTerm (pyStrip (dParam.getD [])) =
      .ok (match pySplitOn '.' nl with
           | p :: _ => p
           | [] => pyStrip (dParam.getD [])) := by
    simp only [domainSearchTerm]
    rw [hnl]
  simp [search_by_domain, h0, hterm]

theorem c4_domain_term_derivation_witness :
    (search_by_domain (some ("https://www.redcross.org/donate".data))
        .timeout).upstreamUrl =
      some (API_BASE ++ "/search.json?q=".data ++ "www".data) :=
  c4_domain_term_derivation (some ("https://www.redcross.org/donate".data))
    .timeout ("www.redcross.org".data) (by decide) rfl

/-- Claim C5: an upstream 404 on Get Organization by Identifier maps to an
outbound 404 with body error `Organization not found`, regardless of the
response body, taking precedence over the generic `raise_for_status` path. -/
theorem c5_upstream_404_mapping (ein : Str) (jsonOk : Bool) (body : Str) :
    get_organization ein (.resp 404 jsonOk body) =
      ⟨some (orgUrl ein), 404, .err ("Organization not found".data)⟩ := by
  simp [get_organization, orgResult]

/-- Claim C6: with a non-empty trimmed `q` and a non-empty trimmed `state`,
the upstream URL carries the `state[id]` filter whose value is the state
input trimmed and uppercased. -/
theorem c6_state_filter_uppercased (qParam stParam : Option Str) (up : UpOutcome)
    (hq : pyStrip (qParam.getD []) ≠ []) (hs : pyStrip (stParam.getD []) ≠ []) :
    (search_organizations qParam stParam up).upstreamUrl =
      some (API_BASE ++ "/search.json?q=".data ++ pyStrip (qParam.getD []) ++
        "&state[id]=".data ++ pyUpper (pyStrip (stParam.getD []))) := by
  have hs' : pyUpper (pyStrip (stParam.getD [])) ≠ [] := by
    simpa [pyUpper] using hs
  simp [search_organizations, searchQuery, searchState, searchUrl, hq, hs']

theorem c6_state_filter_uppercased_witness :
    (search_organizations (some ("red cross".data)) (some (" ca ".data))
        .timeout).upstreamUrl =
      some (API_BASE ++ "/search.json?q=".data ++ "red cross".data ++
        "&state[id]=".data ++ "CA".data) :=
  c6_state_filter_uppercased (some ("red cross".data)) (some (" ca ".data))
    .timeout (by decide) (by decide)

/-- Claim C7 fails as stated: for the domain input `.org`, Search by Domain
issues an upstream call whose derived search term is empty (the host `.org`
splits into an empty first label). -/
theorem c7_nonempty_term_counterexample :
    (search_by_domain (some (".org".data)) .timeout).upstreamUrl =
      some (API_BASE ++ "/search.json?q=".data) ∧
    domainSearchTerm (pyStrip (".org".data)) = .ok [] :=
  ⟨by decide, rfl⟩

/-- Claim C7 amended: for Search by Name the term sent upstream is non-empty
(validated before the call); for Search by Domain only the raw trimmed
domain is validated non-empty before the call — the derived term sent
upstream may be empty. -/
theorem c7_amended_nonempty_validation (qParam stParam dParam : Option Str)
    (up up' : UpOutcome) :
    ((search_organizations qParam stParam up).upstreamUrl.isSome →
      searchQuery qParam ≠ []) ∧
    ((search_by_domain dParam up').upstreamUrl.isSome →
      pyStrip (dParam.getD []) ≠ []) := by
  constructor
  · intro hsome hq
    simp only [searchQuery] at hq
    simp [search_organizations, searchQuery, hq] at hsome
  · intro hsome h0
    simp [search_by_domain, h0] at hsome

theorem c7_amended_nonempty_validation_witness :
    searchQuery (some ("red".data)) ≠ [] ∧ pyStrip ("x.org".data) ≠ [] := by
  constructor
  · exact (c7_amended_nonempty_validation (some ("red".data)) none
      (some ("x.org".data)) .timeout .timeout).1 (by decide)
  · exact (c7_amended_nonempty_validation (some ("red".data)) none
      (some ("x.org".data)) .timeout .timeout).2 (by decide)

/-- Claim C8: every handler, on every input and upstream outcome, responds
either 200 with a passthrough payload or an error status from the gateway's
taxonomy with an `error`-field JSON body; no fault escapes unhandled. -/
theorem c8_error_contract (ein : Str) (qParam stParam dParam : Option Str)
    (up : UpOutcome) :
    jsonContract (get_organization ein up) ∧
    jsonContract (search_organizations qParam stParam up) ∧
    jsonContract (search_by_domain dParam up) ∧
    jsonContract not_found ∧
    jsonContract internal_error := by
  refine ⟨orgResult_contract up, ?_, ?_, ?_, ?_⟩
  · by_cases hq : searchQuery qParam = []
    · simp [search_organizations, hq, jsonContract, errorStatuses]
    · simp only [search_organizations, if_neg hq]
      exact searchResult_contract up
  · by_cases h0 : pyStrip (dParam.getD []) = []
    · simp [search_by_domain, h0, jsonContract, errorStatuses]
    · cases hterm : domainSearchTerm (pyStrip (dParam.getD [])) with
      | error e => simp [search_by_domain, h0, hterm, jsonContract, errorStatuses]
      | ok t =>
        simp only [search_by_domain, if_neg h0, hterm]
        exact domainResult_contract up
  · exact Or.inr ⟨by decide, _, rfl⟩
  · exact Or.inr ⟨by decide, _, rfl⟩

/-- Claim C9: a `state` parameter that is empty or whitespace-only after
trimming is handled exactly as an absent `state`. -/
theorem c9_blank_state_ignored (qParam : Option Str) (st : Str) (up : UpOutcome)
    (h : pyStrip st = []) :
    search_organizations qParam (some st) up =
      search_organizations qParam none up := by
  have hst : searchState (some st) = [] := by
    simp [searchState, h, pyUpper]
  have hn : searchState none = [] := rfl
  simp [search_organizations, hst, hn]

theorem c9_blank_state_ignored_witness :
    search_organizations (some ("red".data)) (some ("  ".data)) .connError =
      search_organizations (some ("red".data)) none .connError :=
  c9_blank_state_ignored (some ("red".data)) ("  ".data) .connError (by decide)

/-- Claim C10: the raw-domain fallback of Search by Domain is unreachable —
splitting any host on `.` yields at least one (possibly empty) label, so the
derived term is always the first label, and it can be the empty string. -/
theorem c10_split_fallback_unreachable :
    (∀ s : Str, pySplitOn '.' s ≠ []) ∧
    (∀ domain nl : Str,
      pyUrlparseNetloc
        (if pyContainsSub ("://".data) domain then domain
         else "http://".data ++ domain) = .ok nl →
      domainSearchTerm domain = .ok ((pySplitOn '.' nl).headD domain)) ∧
    domainSearchTerm (".org".data) = .ok [] := by
  refine ⟨pySplitOn_ne_nil '.', ?_, rfl⟩
  intro domain nl hnl
  simp only [domainSearchTerm]
  rw [hnl]
  cases hsp : pySplitOn '.' nl with
  | nil => exact absurd hsp (pySplitOn_ne_nil '.' nl)
  | cons p ps => simp [hsp]

theorem c10_split_fallback_unreachable_witness :
    domainSearchTerm (".org".data) =
      .ok ((pySplitOn '.' (".org".data)).headD (".org".data)) :=
  (c10_split_fallback_unreachable.2.1 (".org".data) (".org".data) rfl)

end Lookup
